import Mathlib

/-!
Shallow embedding of the CRUD layer of `app.py` (a Streamlit dashboard over a
PostgreSQL store with two tables, `customers` and `inventory`).

Modelling choices, all taken from the source:
* A table is a list of rows in insertion order; `SERIAL PRIMARY KEY` is a
  per-table sequence counter carried in the `DB` state.
* `SELECT * FROM t ORDER BY id` sorts the row list by `id` (insertion sort).
* Timestamps (`datetime.now()`, `created_date`, `last_updated`) are abstract
  clock values threaded as a `Nat` argument.
* `DECIMAL(10,2)` prices are exact rationals (`Rat`).
* The connection pool created by `init_connection_pool` either exists
  (`Pool.ready`) or failed to be created (`Pool.failed e`, where `e` is the
  text of the connection exception).  `st.cache_resource` memoizes the result
  (including the `None` returned on failure) for the process lifetime, and
  replays the static `st.error` element emitted inside the cached function on
  every cache hit (Streamlit element replay), so a failed pool surfaces
  "Error connecting to database: e" on every subsequent call.
* Statement execution can raise: a unique-constraint violation on
  `customers.email` raises `IntegrityError` deterministically from the store
  state; any other run-time failure (network drop, etc.) is modelled by the
  `glitch : Option String` oracle, which makes the statement raise a generic
  exception with the given text.  A raise rolls the transaction back, so the
  store is left unchanged.
-/

/-- One row of the `customers` table (schema from `init_database`). -/
structure CustomerRow where
  id : Nat
  name : String
  email : String
  phone : String
  city : String
  created_date : Nat
deriving DecidableEq, Repr

/-- One row of the `inventory` table (schema from `init_database`). -/
structure InventoryRow where
  id : Nat
  product_name : String
  category : String
  quantity : Int
  price : Rat
  last_updated : Nat
deriving DecidableEq, Repr

/-- The persistent store: both tables plus their `SERIAL` sequences. -/
structure DB where
  customers : List CustomerRow
  custSeq : Nat
  inventory : List InventoryRow
  invSeq : Nat
deriving DecidableEq, Repr

/-- Result of `init_connection_pool`: a usable pool, or the memoized failure
(`None` in the Python source) together with the connection-error text. -/
inductive Pool where
  | ready : Pool
  | failed : String → Pool
deriving DecidableEq, Repr

/-- Messages surfaced by `init_connection_pool` when it is consulted: on a
failed pool the `st.error` emitted inside the `st.cache_resource` function is
(re)played on every call. -/
def Pool.connectErrors : Pool → List String
  | .ready => []
  | .failed e => ["Error connecting to database: " ++ e]

/-- Python exception values thrown by statement execution: the
`psycopg2.IntegrityError` subclass, or any other exception.  The payload is
`str(e)`. -/
inductive PyExn where
  | integrityError : String → PyExn
  | otherError : String → PyExn
deriving DecidableEq, Repr

/-- The `str(e)` text of an exception. -/
def PyExn.str : PyExn → String
  | .integrityError m => m
  | .otherError m => m

/-- Outcome of running a statement: a value, or a raised exception. -/
inductive PyOutcome (α : Type) where
  | ret : α → PyOutcome α
  | exn : PyExn → PyOutcome α
deriving DecidableEq, Repr

/-- Error text PostgreSQL attaches to a unique-key violation on
`customers.email` (the concrete server message is irrelevant to the claims;
only the fact that it is not the create path's friendly message matters). -/
def dupKeyDetail : String := "duplicate key value violates unique constraint"

/-- The context manager `get_db_connection`, run against a body.  `out` counts
connections currently checked out of the pool.  On a ready pool the body runs
with a connection checked out (`out + 1`) and the `finally:` block returns it
(`- 1`) whether the body returned or raised; on a failed pool the body is run
with `None` and the pool is untouched. -/
def withConnection (p : Pool) (out : Nat) (body : Option Unit → PyOutcome α) :
    PyOutcome α × Nat :=
  match p with
  | .failed _ => (body none, out)
  | .ready =>
      let r := body (some ())
      (r, out + 1 - 1)

/-- Statement semantics of the `INSERT INTO customers` in `add_customer`:
raises `IntegrityError` when the email is already present (UNIQUE column),
otherwise appends a row with the next `SERIAL` id and
`created_date = now`. -/
def execInsertCustomer (glitch : Option String) (name email phone city : String)
    (now : Nat) (db : DB) : PyOutcome DB :=
  match glitch with
  | some m => .exn (.otherError m)
  | none =>
      if db.customers.any (fun r => r.email == email) then
        .exn (.integrityError dupKeyDetail)
      else
        .ret { db with
                customers := db.customers ++
                  [⟨db.custSeq, name, email, phone, city, now⟩],
                custSeq := db.custSeq + 1 }

/-- Statement semantics of the `UPDATE customers ... WHERE id=%s` in
`update_customer`: overwrites name/email/phone/city of every row whose id
matches; raises `IntegrityError` when a matched row would take an email some
other row already holds. -/
def execUpdateCustomer (glitch : Option String) (k : Nat)
    (name email phone city : String) (db : DB) : PyOutcome DB :=
  match glitch with
  | some m => .exn (.otherError m)
  | none =>
      if db.customers.any (fun r => r.id == k) &&
         db.customers.any (fun r => r.id != k && r.email == email) then
        .exn (.integrityError dupKeyDetail)
      else
        .ret { db with
                customers := db.customers.map (fun r =>
                  if r.id == k then
                    { r with name := name, email := email, phone := phone,
                             city := city }
                  else r) }

/-- Statement semantics of `DELETE FROM customers WHERE id=%s`. -/
def execDeleteCustomer (glitch : Option String) (k : Nat) (db : DB) :
    PyOutcome DB :=
  match glitch with
  | some m => .exn (.otherError m)
  | none => .ret { db with customers := db.customers.filter (fun r => r.id != k) }

/-- Statement semantics of the `INSERT INTO inventory` in
`add_inventory_item` (no unique column besides the serial id). -/
def execInsertInventory (glitch : Option String) (product_name category : String)
    (quantity : Int) (price : Rat) (now : Nat) (db : DB) : PyOutcome DB :=
  match glitch with
  | some m => .exn (.otherError m)
  | none =>
      .ret { db with
              inventory := db.inventory ++
                [⟨db.invSeq, product_name, category, quantity, price, now⟩],
              invSeq := db.invSeq + 1 }

/-- Statement semantics of the `UPDATE inventory ... WHERE id=%s` in
`update_inventory_item`; also refreshes `last_updated` to `now`. -/
def execUpdateInventory (glitch : Option String) (k : Nat)
    (product_name category : String) (quantity : Int) (price : Rat) (now : Nat)
    (db : DB) : PyOutcome DB :=
  match glitch with
  | some m => .exn (.otherError m)
  | none =>
      .ret { db with
              inventory := db.inventory.map (fun r =>
                if r.id == k then
                  { r with product_name := product_name, category := category,
                           quantity := quantity, price := price,
                           last_updated := now }
                else r) }

/-- Statement semantics of `DELETE FROM inventory WHERE id=%s`. -/
def execDeleteInventory (glitch : Option String) (k : Nat) (db : DB) :
    PyOutcome DB :=
  match glitch with
  | some m => .exn (.otherError m)
  | none => .ret { db with inventory := db.inventory.filter (fun r => r.id != k) }

/-- Body of `add_customer`, line for line: `None` connection short-circuits;
otherwise the insert runs, `except psycopg2.IntegrityError` maps to
`(False, "Email already exists!")` after rollback, `except Exception as e`
maps to `(False, f"Error: ...")` after rollback, success commits and returns
`(True, "Customer added successfully!")`. -/
def addCustomerBody (glitch : Option String) (name email phone city : String)
    (now : Nat) (db : DB) : Option Unit → DB × Bool × String
  | none => (db, false, "Database connection failed")
  | some _ =>
      match execInsertCustomer glitch name email phone city now db with
      | .ret db2 => (db2, true, "Customer added successfully!")
      | .exn (.integrityError _) => (db, false, "Email already exists!")
      | .exn (.otherError m) => (db, false, "Error: " ++ m)

/-- `add_customer` run through the context manager, also tracking the pool's
checked-out count. -/
def add_customer_run (p : Pool) (out : Nat) (glitch : Option String)
    (name email phone city : String) (now : Nat) (db : DB) :
    (DB × Bool × String) × Nat :=
  match withConnection p out (fun c => .ret (addCustomerBody glitch name email phone city now db c)) with
  | (.ret v, n) => (v, n)
  | (.exn _, n) => ((db, false, ""), n)

/-- `add_customer(name, email, phone, city)`: returns the new store plus the
`(success, message)` pair the function returns. -/
def add_customer (p : Pool) (glitch : Option String)
    (name email phone city : String) (now : Nat) (db : DB) :
    DB × Bool × String :=
  (add_customer_run p 0 glitch name email phone city now db).1

/-- Body of `update_customer`: only a catch-all `except Exception as e`
branch, so an integrity violation surfaces as `f"Error: {str(e)}"`. -/
def updateCustomerBody (glitch : Option String) (k : Nat)
    (name email phone city : String) (db : DB) : Option Unit → DB × Bool × String
  | none => (db, false, "Database connection failed")
  | some _ =>
      match execUpdateCustomer glitch k name email phone city db with
      | .ret db2 => (db2, true, "Customer updated successfully!")
      | .exn e => (db, false, "Error: " ++ e.str)

/-- `update_customer` run through the context manager. -/
def update_customer_run (p : Pool) (out : Nat) (glitch : Option String)
    (k : Nat) (name email phone city : String) (db : DB) :
    (DB × Bool × String) × Nat :=
  match withConnection p out (fun c => .ret (updateCustomerBody glitch k name email phone city db c)) with
  | (.ret v, n) => (v, n)
  | (.exn _, n) => ((db, false, ""), n)

/-- `update_customer(customer_id, name, email, phone, city)`. -/
def update_customer (p : Pool) (glitch : Option String) (k : Nat)
    (name email phone city : String) (db : DB) : DB × Bool × String :=
  (update_customer_run p 0 glitch k name email phone city db).1

/-- Body of `delete_customer`: note the return value is a bare message
string, with no success flag. -/
def deleteCustomerBody (glitch : Option String) (k : Nat) (db : DB) :
    Option Unit → DB × String
  | none => (db, "Database connection failed")
  | some _ =>
      match execDeleteCustomer glitch k db with
      | .ret db2 => (db2, "Customer deleted successfully!")
      | .exn e => (db, "Error: " ++ e.str)

/-- `delete_customer` run through the context manager. -/
def delete_customer_run (p : Pool) (out : Nat) (glitch : Option String)
    (k : Nat) (db : DB) : (DB × String) × Nat :=
  match withConnection p out (fun c => .ret (deleteCustomerBody glitch k db c)) with
  | (.ret v, n) => (v, n)
  | (.exn _, n) => ((db, ""), n)

/-- `delete_customer(customer_id)`: returns the new store and the message. -/
def delete_customer (p : Pool) (glitch : Option String) (k : Nat) (db : DB) :
    DB × String :=
  (delete_customer_run p 0 glitch k db).1

/-- Body of `add_inventory_item`: bare message return, catch-all handler. -/
def addInventoryBody (glitch : Option String) (product_name category : String)
    (quantity : Int) (price : Rat) (now : Nat) (db : DB) :
    Option Unit → DB × String
  | none => (db, "Database connection failed")
  | some _ =>
      match execInsertInventory glitch product_name category quantity price now db with
      | .ret db2 => (db2, "Inventory item added successfully!")
      | .exn e => (db, "Error: " ++ e.str)

/-- `add_inventory_item` run through the context manager. -/
def add_inventory_item_run (p : Pool) (out : Nat) (glitch : Option String)
    (product_name category : String) (quantity : Int) (price : Rat) (now : Nat)
    (db : DB) : (DB × String) × Nat :=
  match withConnection p out (fun c => .ret (addInventoryBody glitch product_name category quantity price now db c)) with
  | (.ret v, n) => (v, n)
  | (.exn _, n) => ((db, ""), n)

/-- `add_inventory_item(product_name, category, quantity, price)`. -/
def add_inventory_item (p : Pool) (glitch : Option String)
    (product_name category : String) (quantity : Int) (price : Rat) (now : Nat)
    (db : DB) : DB × String :=
  (add_inventory_item_run p 0 glitch product_name category quantity price now db).1

/-- Body of `update_inventory_item`: bare message return. -/
def updateInventoryBody (glitch : Option String) (k : Nat)
    (product_name category : String) (quantity : Int) (price : Rat) (now : Nat)
    (db : DB) : Option Unit → DB × String
  | none => (db, "Database connection failed")
  | some _ =>
      match execUpdateInventory glitch k product_name category quantity price now db with
      | .ret db2 => (db2, "Inventory item updated successfully!")
      | .exn e => (db, "Error: " ++ e.str)

/-- `update_inventory_item` run through the context manager. -/
def update_inventory_item_run (p : Pool) (out : Nat) (glitch : Option String)
    (k : Nat) (product_name category : String) (quantity : Int) (price : Rat)
    (now : Nat) (db : DB) : (DB × String) × Nat :=
  match withConnection p out (fun c => .ret (updateInventoryBody glitch k product_name category quantity price now db c)) with
  | (.ret v, n) => (v, n)
  | (.exn _, n) => ((db, ""), n)

/-- `update_inventory_item(item_id, product_name, category, quantity, price)`. -/
def update_inventory_item (p : Pool) (glitch : Option String) (k : Nat)
    (product_name category : String) (quantity : Int) (price : Rat) (now : Nat)
    (db : DB) : DB × String :=
  (update_inventory_item_run p 0 glitch k product_name category quantity price now db).1

/-- Body of `delete_inventory_item`: bare message return. -/
def deleteInventoryBody (glitch : Option String) (k : Nat) (db : DB) :
    Option Unit → DB × String
  | none => (db, "Database connection failed")
  | some _ =>
      match execDeleteInventory glitch k db with
      | .ret db2 => (db2, "Inventory item deleted successfully!")
      | .exn e => (db, "Error: " ++ e.str)

/-- `delete_inventory_item` run through the context manager. -/
def delete_inventory_item_run (p : Pool) (out : Nat) (glitch : Option String)
    (k : Nat) (db : DB) : (DB × String) × Nat :=
  match withConnection p out (fun c => .ret (deleteInventoryBody glitch k db c)) with
  | (.ret v, n) => (v, n)
  | (.exn _, n) => ((db, ""), n)

/-- `delete_inventory_item(item_id)`. -/
def delete_inventory_item (p : Pool) (glitch : Option String) (k : Nat)
    (db : DB) : DB × String :=
  (delete_inventory_item_run p 0 glitch k db).1

/-- `SELECT * ... ORDER BY id`: the row multiset sorted by id ascending. -/
def orderById (key : α → Nat) (l : List α) : List α :=
  List.insertionSort (fun a b => key a ≤ key b) l

/-- `get_all_customers()`: the rows of the returned DataFrame and the
`st.error` messages surfaced during the call.  A failed pool yields the
(replayed) connection error and an empty frame; a failed query yields an
`Error fetching customers:` message and an empty frame; otherwise the rows
ordered by id. -/
def get_all_customers (p : Pool) (glitch : Option String) (db : DB) :
    List CustomerRow × List String :=
  match p with
  | .failed e => ([], Pool.connectErrors (.failed e))
  | .ready =>
      match glitch with
      | some m => ([], ["Error fetching customers: " ++ m])
      | none => (orderById (fun r => r.id) db.customers, [])

/-- `get_all_inventory()`: same shape as `get_all_customers`. -/
def get_all_inventory (p : Pool) (glitch : Option String) (db : DB) :
    List InventoryRow × List String :=
  match p with
  | .failed e => ([], Pool.connectErrors (.failed e))
  | .ready =>
      match glitch with
      | some m => ([], ["Error fetching inventory: " ++ m])
      | none => (orderById (fun r => r.id) db.inventory, [])

/-- A message rendered inline by the presentation layer, tagged with the
channel it went through (`st.success`, `st.error`, `st.info`). -/
inductive UiMsg where
  | success : String → UiMsg
  | error : String → UiMsg
  | info : String → UiMsg
deriving DecidableEq, Repr

/-- The Add-New-Customer form handler: validation first (`if name and email`,
i.e. both non-empty), then `add_customer`, then `st.success` on a true flag
and `st.error` otherwise. -/
def addCustomerClick (p : Pool) (glitch : Option String)
    (name email phone city : String) (now : Nat) (db : DB) : DB × UiMsg :=
  if name ≠ "" ∧ email ≠ "" then
    let r := add_customer p glitch name email phone city now db
    (r.1, if r.2.1 then .success r.2.2 else .error r.2.2)
  else
    (db, .error "Name and Email are required!")

/-- The Update-Customer form handler: branches on the returned flag like the
add handler. -/
def updateCustomerClick (p : Pool) (glitch : Option String) (k : Nat)
    (name email phone city : String) (db : DB) : DB × UiMsg :=
  let r := update_customer p glitch k name email phone city db
  (r.1, if r.2.1 then .success r.2.2 else .error r.2.2)

/-- The Delete-Customer button handler: `message = delete_customer(id)` then
`st.success(message)` unconditionally — the message goes through the success
channel even when it reports a failure. -/
def deleteCustomerClick (p : Pool) (glitch : Option String) (k : Nat)
    (db : DB) : DB × UiMsg :=
  let r := delete_customer p glitch k db
  (r.1, .success r.2)

/-- The Add-Inventory form handler: requires a product name, then renders the
returned message through `st.success` unconditionally. -/
def addInventoryClick (p : Pool) (glitch : Option String)
    (product_name category : String) (quantity : Int) (price : Rat)
    (now : Nat) (db : DB) : DB × UiMsg :=
  if product_name ≠ "" then
    let r := add_inventory_item p glitch product_name category quantity price now db
    (r.1, .success r.2)
  else
    (db, .error "Product name is required!")

/-- The Update-Inventory form handler: `st.success(message)` unconditionally. -/
def updateInventoryClick (p : Pool) (glitch : Option String) (k : Nat)
    (product_name category : String) (quantity : Int) (price : Rat)
    (now : Nat) (db : DB) : DB × UiMsg :=
  let r := update_inventory_item p glitch k product_name category quantity price now db
  (r.1, .success r.2)

/-- The Delete-Inventory button handler: `st.success(message)`
unconditionally. -/
def deleteInventoryClick (p : Pool) (glitch : Option String) (k : Nat)
    (db : DB) : DB × UiMsg :=
  let r := delete_inventory_item p glitch k db
  (r.1, .success r.2)

/-- `(inventory_df['quantity'] * inventory_df['price']).sum()`: the
element-wise product column, summed. -/
def totalInventoryValue (rows : List InventoryRow) : Rat :=
  (rows.map (fun r => (r.quantity : Rat) * r.price)).sum

/-- The "Total Inventory Value" metric of the Inventory → View All tab:
rendered only in the non-empty branch (`if inventory_df.empty: st.info(...)
else: ... st.metric(...)`); `none` means no metric element is displayed. -/
def inventoryViewAllMetric (p : Pool) (glitch : Option String) (db : DB) :
    Option Rat :=
  let df := (get_all_inventory p glitch db).1
  if df.isEmpty then none else some (totalInventoryValue df)

/-- One call to `init_connection_pool`, memoized by `st.cache_resource`:
`cache = none` means no attempt yet; a hit returns the cached value (pool or
failure) without touching the database.  `reach` says whether the database is
reachable at this attempt, `e` is the connection-error text when it is not. -/
def initConnectionPool (e : String) (reach : Bool) (cache : Option Pool) :
    Pool × Option Pool :=
  match cache with
  | some p => (p, some p)
  | none =>
      let p := if reach then Pool.ready else Pool.failed e
      (p, some p)

/-- A sequence of `init_connection_pool` calls, one per operation, against a
reachability trace.  Returns the pool each call observed, the final cache,
and how many times pool creation was actually attempted. -/
def runPoolCalls (e : String) : List Bool → Option Pool →
    List Pool × Option Pool × Nat
  | [], c => ([], c, 0)
  | r :: rs, c =>
      match c with
      | some p =>
          let rec0 := runPoolCalls e rs (some p)
          (p :: rec0.1, rec0.2.1, rec0.2.2)
      | none =>
          let p := if r then Pool.ready else Pool.failed e
          let rec0 := runPoolCalls e rs (some p)
          (p :: rec0.1, rec0.2.1, rec0.2.2 + 1)

/-- Does `to_csv` need to quote this field?  (pandas/csv `QUOTE_MINIMAL`:
quote when the field contains the delimiter, the quote char, or a line-break
character.) -/
def needsQuote (s : List Char) : Bool :=
  s.any (fun c => c == ',' || c == '"' || c == '\n' || c == '\r')

/-- Double every quote character (CSV escaping inside a quoted field). -/
def escQ : List Char → List Char
  | [] => []
  | c :: cs => if c == '"' then '"' :: '"' :: escQ cs else c :: escQ cs

/-- Render one field the way `to_csv` does: quoted with doubled inner quotes
when it contains a special character, verbatim otherwise. -/
def quoteField (s : List Char) : List Char :=
  if needsQuote s then '"' :: (escQ s ++ ['"']) else s

/-- Join rendered fields with the `,` delimiter. -/
def joinComma : List (List Char) → List Char
  | [] => []
  | [f] => f
  | f :: fs => f ++ ',' :: joinComma fs

/-- The text of one CSV line (without the terminating newline). -/
def csvLineContent (fields : List (List Char)) : List Char :=
  joinComma (fields.map quoteField)

/-- `df.to_csv(index=False)`: one `\n`-terminated line per record, header
first (the header is just the first record passed in). -/
def csvText (records : List (List (List Char))) : List Char :=
  (records.map (fun f => csvLineContent f ++ ['\n'])).flatten

/-- Columns of the customers DataFrame (`SELECT *` over the schema). -/
def customerColumns : List String :=
  ["id", "name", "email", "phone", "city", "created_date"]

/-- Columns of the inventory DataFrame. -/
def inventoryColumns : List String :=
  ["id", "product_name", "category", "quantity", "price", "last_updated"]

/-- One customer row as the list of its rendered cell texts. -/
def customerRecord (r : CustomerRow) : List (List Char) :=
  [(toString r.id).data, r.name.data, r.email.data, r.phone.data,
   r.city.data, (toString r.created_date).data]

/-- One inventory row as the list of its rendered cell texts. -/
def inventoryRecord (r : InventoryRow) : List (List Char) :=
  [(toString r.id).data, r.product_name.data, r.category.data,
   (toString r.quantity).data, (toString r.price).data,
   (toString r.last_updated).data]

/-- The customers View-All export: `customers_df.to_csv(index=False)`. -/
def customersCsv (rows : List CustomerRow) : List Char :=
  csvText (customerColumns.map String.data :: rows.map customerRecord)

/-- The inventory View-All export: `inventory_df.to_csv(index=False)`. -/
def inventoryCsv (rows : List InventoryRow) : List Char :=
  csvText (inventoryColumns.map String.data :: rows.map inventoryRecord)

/-- CSV reader, record layer: split on newlines that are outside quotes
(every quote character toggles the in-quotes flag, which is exactly right for
record splitting since escaped quotes toggle twice). -/
def splitRecsAux : List Char → Bool → List Char → List (List Char)
  | [], _, cur => if cur.isEmpty then [] else [cur.reverse]
  | c :: cs, inQ, cur =>
      if c == '"' then splitRecsAux cs (!inQ) (c :: cur)
      else if c == '\n' && !inQ then cur.reverse :: splitRecsAux cs false []
      else splitRecsAux cs inQ (c :: cur)

/-- Parse a CSV text into its records. -/
def csvRecords (s : List Char) : List (List Char) := splitRecsAux s false []

/-- CSV reader, field layer: split a record on commas outside quotes. -/
def splitFieldsAux : List Char → Bool → List Char → List (List Char)
  | [], _, cur => [cur.reverse]
  | c :: cs, inQ, cur =>
      if c == '"' then splitFieldsAux cs (!inQ) (c :: cur)
      else if c == ',' && !inQ then cur.reverse :: splitFieldsAux cs false []
      else splitFieldsAux cs inQ (c :: cur)

/-- Parse one CSV record into its (still escaped) fields. -/
def csvFields (rec : List Char) : List (List Char) := splitFieldsAux rec false []

/-- Quote-parity of a scan of `s` starting in state `b`. -/
def endQ : List Char → Bool → Bool
  | [], b => b
  | c :: cs, b => endQ cs (if c == '"' then !b else b)

/-- True when a scan of `s` starting in state `b` meets no newline outside
quotes (so the record splitter will not break inside `s`). -/
def goodSeg : List Char → Bool → Bool
  | [], _ => true
  | c :: cs, b =>
      if c == '"' then goodSeg cs (!b)
      else if c == '\n' && !b then false
      else goodSeg cs b

/-- C1: for every store state holding exactly one row with a given email, a
create-customer call with that email fails with the DuplicateKey message
"Email already exists!" (the `IntegrityError` branch), the insert is rolled
back (the store is returned unchanged), and afterwards the store still
contains exactly one row with that email. -/
theorem add_customer_duplicate_email (db : DB) (name email phone city : String)
    (now : Nat)
    (h1 : (db.customers.filter (fun r => r.email == email)).length = 1) :
    add_customer Pool.ready none name email phone city now db =
      (db, false, "Email already exists!") ∧
    ((add_customer Pool.ready none name email phone city now db).1.customers.filter
        (fun r => r.email == email)).length = 1 := by
  have hne : db.customers.filter (fun r => r.email == email) ≠ [] := by
    intro h
    rw [h] at h1
    simp at h1
  have hany : db.customers.any (fun r => r.email == email) = true := by
    obtain ⟨x, hx⟩ := List.exists_mem_of_ne_nil _ hne
    exact List.any_eq_true.mpr
      ⟨x, (List.mem_filter.mp hx).1, (List.mem_filter.mp hx).2⟩
  have hmain : add_customer Pool.ready none name email phone city now db =
      (db, false, "Email already exists!") := by
    simp [add_customer, add_customer_run, withConnection, addCustomerBody,
          execInsertCustomer, hany]
  exact ⟨hmain, by rw [hmain]; exact h1⟩

/-- Witness for C1: a one-row store, then a second create with the same
email. -/
theorem add_customer_duplicate_email_witness :
    (((⟨[⟨1, "Alice", "alice@example.com", "555", "Rome", 5⟩], 2, [], 1⟩ : DB).customers.filter
        (fun r => r.email == "alice@example.com")).length = 1) ∧
    (add_customer Pool.ready none "Bob" "alice@example.com" "777" "Oslo" 9
        ⟨[⟨1, "Alice", "alice@example.com", "555", "Rome", 5⟩], 2, [], 1⟩ =
      (⟨[⟨1, "Alice", "alice@example.com", "555", "Rome", 5⟩], 2, [], 1⟩, false,
       "Email already exists!") ∧
     ((add_customer Pool.ready none "Bob" "alice@example.com" "777" "Oslo" 9
        ⟨[⟨1, "Alice", "alice@example.com", "555", "Rome", 5⟩], 2, [], 1⟩).1.customers.filter
        (fun r => r.email == "alice@example.com")).length = 1) :=
  ⟨by decide,
   add_customer_duplicate_email _ "Bob" "alice@example.com" "777" "Oslo" 9 (by decide)⟩

/-- C4: when an id matches no row of the corresponding table, update
customer, delete customer, update inventory item and delete inventory item
all report their success message and leave the store completely unchanged. -/
theorem missing_id_mutations_succeed_unchanged (db : DB) (k now : Nat)
    (name email phone city pn cat : String) (q : Int) (pr : Rat)
    (hc : ∀ r ∈ db.customers, r.id ≠ k)
    (hi : ∀ r ∈ db.inventory, r.id ≠ k) :
    update_customer Pool.ready none k name email phone city db =
      (db, true, "Customer updated successfully!") ∧
    delete_customer Pool.ready none k db =
      (db, "Customer deleted successfully!") ∧
    update_inventory_item Pool.ready none k pn cat q pr now db =
      (db, "Inventory item updated successfully!") ∧
    delete_inventory_item Pool.ready none k db =
      (db, "Inventory item deleted successfully!") := by
  have hca : db.customers.any (fun r => r.id == k) = false := by
    rw [List.any_eq_false]
    intro r hr
    simpa using hc r hr
  have hmapc : db.customers.map (fun r =>
      if r.id = k then
        { r with name := name, email := email, phone := phone, city := city }
      else r) = db.customers := by
    have h := List.map_congr_left (l := db.customers)
      (f := fun r => if r.id = k then
        { r with name := name, email := email, phone := phone, city := city }
      else r) (g := id) (by
        intro r hr
        simp [hc r hr])
    rw [h, List.map_id]
  have hfilc : db.customers.filter (fun r => r.id != k) = db.customers := by
    rw [List.filter_eq_self]
    intro r hr
    simpa using hc r hr
  have hmapi : db.inventory.map (fun r =>
      if r.id = k then
        { r with product_name := pn, category := cat, quantity := q,
                 price := pr, last_updated := now }
      else r) = db.inventory := by
    have h := List.map_congr_left (l := db.inventory)
      (f := fun r => if r.id = k then
        { r with product_name := pn, category := cat, quantity := q,
                 price := pr, last_updated := now }
      else r) (g := id) (by
        intro r hr
        simp [hi r hr])
    rw [h, List.map_id]
  have hfili : db.inventory.filter (fun r => r.id != k) = db.inventory := by
    rw [List.filter_eq_self]
    intro r hr
    simpa using hi r hr
  refine ⟨?_, ?_, ?_, ?_⟩
  · simp [update_customer, update_customer_run, withConnection,
          updateCustomerBody, execUpdateCustomer, hca, hmapc]
  · simp [delete_customer, delete_customer_run, withConnection,
          deleteCustomerBody, execDeleteCustomer, hfilc]
  · simp [update_inventory_item, update_inventory_item_run, withConnection,
          updateInventoryBody, execUpdateInventory, hmapi]
  · simp [delete_inventory_item, delete_inventory_item_run, withConnection,
          deleteInventoryBody, execDeleteInventory, hfili]

/-- Witness for C4: a store with one customer (id 1) and one inventory row
(id 1), mutated at the unmatched id 2. -/
theorem missing_id_mutations_succeed_unchanged_witness :
    ((∀ r ∈ (⟨[⟨1, "A", "a@x", "5", "Rome", 5⟩], 2,
              [⟨1, "W", "H", 3, 2, 4⟩], 2⟩ : DB).customers, r.id ≠ 2) ∧
     (∀ r ∈ (⟨[⟨1, "A", "a@x", "5", "Rome", 5⟩], 2,
              [⟨1, "W", "H", 3, 2, 4⟩], 2⟩ : DB).inventory, r.id ≠ 2)) ∧
    update_customer Pool.ready none 2 "B" "b@x" "7" "Oslo"
        ⟨[⟨1, "A", "a@x", "5", "Rome", 5⟩], 2, [⟨1, "W", "H", 3, 2, 4⟩], 2⟩ =
      (⟨[⟨1, "A", "a@x", "5", "Rome", 5⟩], 2, [⟨1, "W", "H", 3, 2, 4⟩], 2⟩,
       true, "Customer updated successfully!") ∧
    delete_customer Pool.ready none 2
        ⟨[⟨1, "A", "a@x", "5", "Rome", 5⟩], 2, [⟨1, "W", "H", 3, 2, 4⟩], 2⟩ =
      (⟨[⟨1, "A", "a@x", "5", "Rome", 5⟩], 2, [⟨1, "W", "H", 3, 2, 4⟩], 2⟩,
       "Customer deleted successfully!") ∧
    update_inventory_item Pool.ready none 2 "V" "G" 6 3 9
        ⟨[⟨1, "A", "a@x", "5", "Rome", 5⟩], 2, [⟨1, "W", "H", 3, 2, 4⟩], 2⟩ =
      (⟨[⟨1, "A", "a@x", "5", "Rome", 5⟩], 2, [⟨1, "W", "H", 3, 2, 4⟩], 2⟩,
       "Inventory item updated successfully!") ∧
    delete_inventory_item Pool.ready none 2
        ⟨[⟨1, "A", "a@x", "5", "Rome", 5⟩], 2, [⟨1, "W", "H", 3, 2, 4⟩], 2⟩ =
      (⟨[⟨1, "A", "a@x", "5", "Rome", 5⟩], 2, [⟨1, "W", "H", 3, 2, 4⟩], 2⟩,
       "Inventory item deleted successfully!") := by
  have h := missing_id_mutations_succeed_unchanged
    ⟨[⟨1, "A", "a@x", "5", "Rome", 5⟩], 2, [⟨1, "W", "H", 3, 2, 4⟩], 2⟩
    2 9 "B" "b@x" "7" "Oslo" "V" "G" 6 3 (by decide) (by decide)
  exact ⟨⟨by decide, by decide⟩, h.1, h.2.1, h.2.2.1, h.2.2.2⟩

/-- C10: updating a customer to an email another row already holds trips the
unique constraint, which `update_customer` rolls back and reports through its
catch-all branch as a generic "Error: ..." message — not as the create
path's DuplicateKey message "Email already exists!". -/
theorem update_customer_duplicate_email_generic (db : DB) (k : Nat)
    (name email phone city : String)
    (hk : db.customers.any (fun r => r.id == k) = true)
    (hd : db.customers.any (fun r => r.id != k && r.email == email) = true) :
    update_customer Pool.ready none k name email phone city db =
      (db, false, "Error: " ++ dupKeyDetail) ∧
    (update_customer Pool.ready none k name email phone city db).2.2 ≠
      "Email already exists!" ∧
    (update_customer Pool.ready none k name email phone city db).2.2.take 7 =
      "Error: " := by
  have hmain : update_customer Pool.ready none k name email phone city db =
      (db, false, "Error: " ++ dupKeyDetail) := by
    simp [update_customer, update_customer_run, withConnection,
          updateCustomerBody, execUpdateCustomer, hk, hd, PyExn.str]
  refine ⟨hmain, ?_, ?_⟩
  · rw [hmain]
    show ("Error: " ++ dupKeyDetail) ≠ "Email already exists!"
    decide
  · rw [hmain]
    show ("Error: " ++ dupKeyDetail).take 7 = "Error: "
    decide

/-- Witness for C10: two customers; row 1 is updated to row 2's email. -/
theorem update_customer_duplicate_email_generic_witness :
    ((⟨[⟨1, "A", "a@x", "5", "Rome", 5⟩, ⟨2, "B", "b@x", "7", "Oslo", 6⟩],
       3, [], 1⟩ : DB).customers.any (fun r => r.id == 1) = true ∧
     (⟨[⟨1, "A", "a@x", "5", "Rome", 5⟩, ⟨2, "B", "b@x", "7", "Oslo", 6⟩],
       3, [], 1⟩ : DB).customers.any
        (fun r => r.id != 1 && r.email == "b@x") = true) ∧
    update_customer Pool.ready none 1 "A" "b@x" "5" "Rome"
        ⟨[⟨1, "A", "a@x", "5", "Rome", 5⟩, ⟨2, "B", "b@x", "7", "Oslo", 6⟩],
         3, [], 1⟩ =
      (⟨[⟨1, "A", "a@x", "5", "Rome", 5⟩, ⟨2, "B", "b@x", "7", "Oslo", 6⟩],
        3, [], 1⟩, false, "Error: " ++ dupKeyDetail) := by
  have h := update_customer_duplicate_email_generic
    ⟨[⟨1, "A", "a@x", "5", "Rome", 5⟩, ⟨2, "B", "b@x", "7", "Oslo", 6⟩], 3, [], 1⟩
    1 "A" "b@x" "5" "Rome" (by decide) (by decide)
  exact ⟨⟨by decide, by decide⟩, h.1⟩

/-- C5: the context manager returns the borrowed connection to the pool on
every exit path — whatever the body does, including raising — and therefore
every data access operation leaves the pool's checked-out count exactly
where it found it. -/
theorem pool_connection_returned_every_path (p : Pool) (out : Nat)
    (g : Option String) (k now : Nat)
    (name email phone city pn cat : String) (q : Int) (pr : Rat) (db : DB) :
    (∀ (α : Type) (body : Option Unit → PyOutcome α),
        (withConnection p out body).2 = out) ∧
    (add_customer_run p out g name email phone city now db).2 = out ∧
    (update_customer_run p out g k name email phone city db).2 = out ∧
    (delete_customer_run p out g k db).2 = out ∧
    (add_inventory_item_run p out g pn cat q pr now db).2 = out ∧
    (update_inventory_item_run p out g k pn cat q pr now db).2 = out ∧
    (delete_inventory_item_run p out g k db).2 = out := by
  cases p <;>
    simp [withConnection, add_customer_run, update_customer_run,
          delete_customer_run, add_inventory_item_run,
          update_inventory_item_run, delete_inventory_item_run]

/-- Auxiliary fact for C9: once `st.cache_resource` holds a value, every
later call returns exactly that value and never attempts pool creation. -/
theorem runPoolCalls_cached (e : String) (rs : List Bool) (p : Pool) :
    runPoolCalls e rs (some p) = (List.replicate rs.length p, some p, 0) := by
  induction rs with
  | nil => simp [runPoolCalls]
  | cons r rs ih => simp [runPoolCalls, ih, List.replicate_succ]

/-- C9: when the first `init_connection_pool` attempt fails, the `None`
result is memoized: every one of the calls in the process sees the failed
pool, creation is attempted exactly once (never retried, even on a trace
where the database becomes reachable), and with that pool every operation
fails with its connection-failure message while the list operations surface
the replayed connection error. -/
theorem pool_failure_memoized_forever (e : String) (rs : List Bool)
    (g : Option String) (k now : Nat) (name email phone city : String)
    (db : DB) :
    runPoolCalls e (false :: rs) none =
      (List.replicate (rs.length + 1) (Pool.failed e), some (Pool.failed e), 1) ∧
    add_customer (Pool.failed e) g name email phone city now db =
      (db, false, "Database connection failed") ∧
    update_customer (Pool.failed e) g k name email phone city db =
      (db, false, "Database connection failed") ∧
    delete_customer (Pool.failed e) g k db =
      (db, "Database connection failed") ∧
    get_all_customers (Pool.failed e) g db =
      ([], ["Error connecting to database: " ++ e]) ∧
    get_all_inventory (Pool.failed e) g db =
      ([], ["Error connecting to database: " ++ e]) := by
  refine ⟨?_, ?_, ?_, ?_, ?_, ?_⟩
  · simp [runPoolCalls, runPoolCalls_cached, List.replicate_succ]
  · simp [add_customer, add_customer_run, withConnection, addCustomerBody]
  · simp [update_customer, update_customer_run, withConnection,
          updateCustomerBody]
  · simp [delete_customer, delete_customer_run, withConnection,
          deleteCustomerBody]
  · simp [get_all_customers, Pool.connectErrors]
  · simp [get_all_inventory, Pool.connectErrors]

/-- C3: the list operations return exactly the rows of their table (a
permutation of the stored multiset) ordered by id ascending with no error
surfaced; on an empty table the result is empty with no error; on an
unavailable connection the result is empty and the connection error is
surfaced — so the two empty-result cases differ only in the error channel. -/
theorem list_operations_contract (db : DB) (cs : List CustomerRow)
    (inv : List InventoryRow) (s1 s2 s3 s4 : Nat) (e : String)
    (g : Option String) :
    List.Perm (get_all_customers Pool.ready none db).1 db.customers ∧
    List.Pairwise (fun a b : CustomerRow => a.id ≤ b.id)
      (get_all_customers Pool.ready none db).1 ∧
    (get_all_customers Pool.ready none db).2 = [] ∧
    List.Perm (get_all_inventory Pool.ready none db).1 db.inventory ∧
    List.Pairwise (fun a b : InventoryRow => a.id ≤ b.id)
      (get_all_inventory Pool.ready none db).1 ∧
    (get_all_inventory Pool.ready none db).2 = [] ∧
    get_all_customers Pool.ready none ⟨[], s1, inv, s2⟩ = ([], []) ∧
    get_all_inventory Pool.ready none ⟨cs, s3, [], s4⟩ = ([], []) ∧
    get_all_customers (Pool.failed e) g db =
      ([], ["Error connecting to database: " ++ e]) ∧
    get_all_inventory (Pool.failed e) g db =
      ([], ["Error connecting to database: " ++ e]) := by
  haveI htc : IsTotal CustomerRow (fun a b => a.id ≤ b.id) :=
    ⟨fun a b => Nat.le_total a.id b.id⟩
  haveI hrc : IsTrans CustomerRow (fun a b => a.id ≤ b.id) :=
    ⟨fun _ _ _ h1 h2 => Nat.le_trans h1 h2⟩
  haveI hti : IsTotal InventoryRow (fun a b => a.id ≤ b.id) :=
    ⟨fun a b => Nat.le_total a.id b.id⟩
  haveI hri : IsTrans InventoryRow (fun a b => a.id ≤ b.id) :=
    ⟨fun _ _ _ h1 h2 => Nat.le_trans h1 h2⟩
  refine ⟨?_, ?_, ?_, ?_, ?_, ?_, ?_, ?_, ?_, ?_⟩
  · exact List.perm_insertionSort _ _
  · exact List.sorted_insertionSort _ db.customers
  · rfl
  · exact List.perm_insertionSort _ _
  · exact List.sorted_insertionSort _ db.inventory
  · rfl
  · rfl
  · rfl
  · rfl
  · rfl

/-- C6: for a store satisfying the data-model invariants (unique ids, unique
emails), updating an existing customer with a new city and its current
name/email/phone reports success, and the subsequent listing contains the
row with the new city and the unchanged id, name, email, phone and
created_date; every listed row with a different id is exactly a row of the
old listing. -/
theorem update_customer_city_frame (db : DB) (r : CustomerRow) (city2 : String)
    (hmem : r ∈ db.customers)
    (hid : (db.customers.map (fun x => x.id)).Nodup)
    (hem : (db.customers.map (fun x => x.email)).Nodup) :
    (update_customer Pool.ready none r.id r.name r.email r.phone city2 db).2 =
      (true, "Customer updated successfully!") ∧
    (⟨r.id, r.name, r.email, r.phone, city2, r.created_date⟩ : CustomerRow) ∈
      (get_all_customers Pool.ready none
        (update_customer Pool.ready none r.id r.name r.email r.phone city2 db).1).1 ∧
    (∀ x ∈ (get_all_customers Pool.ready none
        (update_customer Pool.ready none r.id r.name r.email r.phone city2 db).1).1,
      x.id = r.id →
        x = ⟨r.id, r.name, r.email, r.phone, city2, r.created_date⟩) ∧
    (∀ x ∈ (get_all_customers Pool.ready none
        (update_customer Pool.ready none r.id r.name r.email r.phone city2 db).1).1,
      x.id ≠ r.id → x ∈ (get_all_customers Pool.ready none db).1) := by
  have hnodup : db.customers.any
      (fun x => x.id != r.id && x.email == r.email) = false := by
    rw [List.any_eq_false]
    intro x hx
    simp only [Bool.and_eq_true, bne_iff_ne, beq_iff_eq, not_and]
    intro hne heq
    have hxr : x = r := List.inj_on_of_nodup_map hem hx hmem heq
    exact absurd (by rw [hxr]) hne
  have hupd : update_customer Pool.ready none r.id r.name r.email r.phone city2 db =
      ({ db with customers := db.customers.map (fun x =>
          if x.id = r.id then
            { x with name := r.name, email := r.email, phone := r.phone,
                     city := city2 }
          else x) }, true, "Customer updated successfully!") := by
    simp [update_customer, update_customer_run, withConnection,
          updateCustomerBody, execUpdateCustomer, hnodup]
  have hgid : ∀ x : CustomerRow,
      ((fun x : CustomerRow => if x.id = r.id then
          { x with name := r.name, email := r.email, phone := r.phone,
                   city := city2 }
        else x) x).id = x.id := by
    intro x
    by_cases h : x.id = r.id <;> simp [h]
  refine ⟨by rw [hupd], ?_, ?_, ?_⟩
  · rw [hupd]
    simp only [get_all_customers, orderById, List.mem_insertionSort]
    refine List.mem_map.mpr ⟨r, hmem, ?_⟩
    simp
  · rw [hupd]
    simp only [get_all_customers, orderById, List.mem_insertionSort]
    intro x hx hxid
    obtain ⟨y, hy, hxy⟩ := List.mem_map.mp hx
    have hyid : y.id = r.id := by
      rw [← hxy] at hxid
      rw [← hgid y]
      exact hxid
    have hyr : y = r := List.inj_on_of_nodup_map hid hy hmem hyid
    rw [← hxy, hyr]
    simp
  · rw [hupd]
    simp only [get_all_customers, orderById, List.mem_insertionSort]
    intro x hx hxid
    obtain ⟨y, hy, hxy⟩ := List.mem_map.mp hx
    have hyid : y.id ≠ r.id := by
      intro h
      apply hxid
      rw [← hxy, hgid y, h]
    rw [← hxy]
    simpa [hyid] using hy

/-- Witness for C6: a two-row store, the first row moved to a new city. -/
theorem update_customer_city_frame_witness :
    ((⟨1, "A", "a@x", "5", "Rome", 5⟩ : CustomerRow) ∈
      (⟨[⟨1, "A", "a@x", "5", "Rome", 5⟩, ⟨2, "B", "b@x", "7", "Oslo", 6⟩],
        3, [], 1⟩ : DB).customers ∧
     ((⟨[⟨1, "A", "a@x", "5", "Rome", 5⟩, ⟨2, "B", "b@x", "7", "Oslo", 6⟩],
        3, [], 1⟩ : DB).customers.map (fun x => x.id)).Nodup ∧
     ((⟨[⟨1, "A", "a@x", "5", "Rome", 5⟩, ⟨2, "B", "b@x", "7", "Oslo", 6⟩],
        3, [], 1⟩ : DB).customers.map (fun x => x.email)).Nodup) ∧
    (⟨1, "A", "a@x", "5", "Paris", 5⟩ : CustomerRow) ∈
      (get_all_customers Pool.ready none
        (update_customer Pool.ready none 1 "A" "a@x" "5" "Paris"
          ⟨[⟨1, "A", "a@x", "5", "Rome", 5⟩, ⟨2, "B", "b@x", "7", "Oslo", 6⟩],
           3, [], 1⟩).1).1 := by
  have h := update_customer_city_frame
    ⟨[⟨1, "A", "a@x", "5", "Rome", 5⟩, ⟨2, "B", "b@x", "7", "Oslo", 6⟩], 3, [], 1⟩
    ⟨1, "A", "a@x", "5", "Rome", 5⟩ "Paris"
    (by decide) (by decide) (by decide)
  exact ⟨⟨by decide, by decide, by decide⟩, h.2.1⟩

/-- C7 counterexample: with zero inventory rows the View-All tab takes the
`st.info` branch and renders no "Total Inventory Value" metric at all, so
the displayed value is not 0 — the metric is absent. -/
theorem inventory_value_metric_absent_when_empty :
    inventoryViewAllMetric Pool.ready none ⟨[], 1, [], 1⟩ ≠ some 0 := by
  decide

/-- C7 (amended): for every store whose inventory table is non-empty, the
displayed "Total Inventory Value" metric equals the sum over all rows of
quantity times price; with zero rows no metric is rendered (rather than a
metric of 0). -/
theorem inventory_value_metric_nonempty (db : DB) (h : db.inventory ≠ []) :
    inventoryViewAllMetric Pool.ready none db =
      some (totalInventoryValue db.inventory) := by
  have hperm : List.Perm (orderById (fun r : InventoryRow => r.id) db.inventory)
      db.inventory := List.perm_insertionSort _ _
  have hne : orderById (fun r : InventoryRow => r.id) db.inventory ≠ [] := by
    intro h0
    exact h (List.Perm.eq_nil (h0 ▸ hperm.symm))
  have hemp : (orderById (fun r : InventoryRow => r.id) db.inventory).isEmpty
      = false := by
    cases hb : (orderById (fun r : InventoryRow => r.id) db.inventory).isEmpty
    · rfl
    · exact absurd (List.isEmpty_iff.mp hb) hne
  have hval : totalInventoryValue
      (orderById (fun r : InventoryRow => r.id) db.inventory) =
      totalInventoryValue db.inventory := by
    unfold totalInventoryValue
    exact List.Perm.sum_eq (hperm.map _)
  simp [inventoryViewAllMetric, get_all_inventory, hemp, hval]

/-- Witness for C7: the spec's own scenario — one row, quantity 10 at price
5/2, metric 25. -/
theorem inventory_value_metric_nonempty_witness :
    ((⟨[], 1, [⟨1, "Widget", "Hardware", 10, 5/2, 3⟩], 2⟩ : DB).inventory ≠ []) ∧
    inventoryViewAllMetric Pool.ready none
        ⟨[], 1, [⟨1, "Widget", "Hardware", 10, 5/2, 3⟩], 2⟩ =
      some (totalInventoryValue
        (⟨[], 1, [⟨1, "Widget", "Hardware", 10, 5/2, 3⟩], 2⟩ : DB).inventory) ∧
    totalInventoryValue
        (⟨[], 1, [⟨1, "Widget", "Hardware", 10, 5/2, 3⟩], 2⟩ : DB).inventory = 25 :=
  ⟨by decide,
   inventory_value_metric_nonempty _ (by decide),
   by norm_num [totalInventoryValue]⟩

/-- C2 counterexample: `delete_customer` returns only a bare message string
(no status component), and the Delete-Customer handler passes whatever comes
back to `st.success`; on a failed connection the failure is therefore
surfaced through the success channel, not as a (status=failure, message)
pair — refuting the claim that every data access function returns a
status+message pair. -/
theorem delete_failure_surfaced_as_success :
    deleteCustomerClick (Pool.failed "connection refused") none 1 ⟨[], 1, [], 1⟩ =
      (⟨[], 1, [], 1⟩, UiMsg.success "Database connection failed") ∧
    (deleteCustomerClick (Pool.failed "connection refused") none 1
        ⟨[], 1, [], 1⟩).2 ≠ UiMsg.error "Database connection failed" := by
  constructor <;> decide

/-- C2 (amended): every data access function converts every failure it can
observe into an ordinary return value (the connection-failure cases below
all return the store unchanged plus a message, for any glitch), but only
create-customer and update-customer return a status+message pair that the
presentation layer branches on; delete-customer and the three inventory
mutations return a bare message which the handlers always render through the
success channel, even when it reports a failure. -/
theorem data_access_status_shapes (p : Pool) (g : Option String) (e : String)
    (k now : Nat) (name email phone city pn cat : String) (q : Int) (pr : Rat)
    (db : DB) (hn : name ≠ "") (he : email ≠ "") (hp : pn ≠ "") :
    (addCustomerClick p g name email phone city now db).2 =
      (if (add_customer p g name email phone city now db).2.1 then
        UiMsg.success (add_customer p g name email phone city now db).2.2
      else UiMsg.error (add_customer p g name email phone city now db).2.2) ∧
    (updateCustomerClick p g k name email phone city db).2 =
      (if (update_customer p g k name email phone city db).2.1 then
        UiMsg.success (update_customer p g k name email phone city db).2.2
      else UiMsg.error (update_customer p g k name email phone city db).2.2) ∧
    (deleteCustomerClick p g k db).2 =
      UiMsg.success (delete_customer p g k db).2 ∧
    (addInventoryClick p g pn cat q pr now db).2 =
      UiMsg.success (add_inventory_item p g pn cat q pr now db).2 ∧
    (updateInventoryClick p g k pn cat q pr now db).2 =
      UiMsg.success (update_inventory_item p g k pn cat q pr now db).2 ∧
    (deleteInventoryClick p g k db).2 =
      UiMsg.success (delete_inventory_item p g k db).2 ∧
    add_customer (Pool.failed e) g name email phone city now db =
      (db, false, "Database connection failed") ∧
    update_customer (Pool.failed e) g k name email phone city db =
      (db, false, "Database connection failed") ∧
    delete_customer (Pool.failed e) g k db = (db, "Database connection failed") ∧
    add_inventory_item (Pool.failed e) g pn cat q pr now db =
      (db, "Database connection failed") ∧
    update_inventory_item (Pool.failed e) g k pn cat q pr now db =
      (db, "Database connection failed") ∧
    delete_inventory_item (Pool.failed e) g k db =
      (db, "Database connection failed") := by
  refine ⟨?_, ?_, ?_, ?_, ?_, ?_, ?_, ?_, ?_, ?_, ?_, ?_⟩
  · simp [addCustomerClick, hn, he]
  · simp [updateCustomerClick]
  · simp [deleteCustomerClick]
  · simp [addInventoryClick, hp]
  · simp [updateInventoryClick]
  · simp [deleteInventoryClick]
  · simp [add_customer, add_customer_run, withConnection, addCustomerBody]
  · simp [update_customer, update_customer_run, withConnection,
          updateCustomerBody]
  · simp [delete_customer, delete_customer_run, withConnection,
          deleteCustomerBody]
  · simp [add_inventory_item, add_inventory_item_run, withConnection,
          addInventoryBody]
  · simp [update_inventory_item, update_inventory_item_run, withConnection,
          updateInventoryBody]
  · simp [delete_inventory_item, delete_inventory_item_run, withConnection,
          deleteInventoryBody]

/-- Witness for the amended C2, at a concrete store and concrete inputs. -/
theorem data_access_status_shapes_witness :
    (("Bob" : String) ≠ "" ∧ ("b@x" : String) ≠ "" ∧ ("Widget" : String) ≠ "") ∧
    (deleteCustomerClick Pool.ready none 1 ⟨[], 1, [], 1⟩).2 =
      UiMsg.success (delete_customer Pool.ready none 1 ⟨[], 1, [], 1⟩).2 :=
  ⟨⟨by decide, by decide, by decide⟩,
   (data_access_status_shapes Pool.ready none "x" 1 0 "Bob" "b@x" "" ""
     "Widget" "" 0 0 ⟨[], 1, [], 1⟩ (by decide) (by decide) (by decide)).2.2.1⟩

/-- A field that `to_csv` leaves unquoted contains none of the four special
characters. -/
theorem no_special_of_not_needsQuote (f : List Char) (h : needsQuote f = false) :
    ∀ c ∈ f, (c == ',') = false ∧ (c == '"') = false ∧
      (c == '\n') = false ∧ (c == '\r') = false := by
  intro c hc
  have h2 := List.any_eq_false.mp h c hc
  simp only [Bool.or_eq_true, not_or, Bool.not_eq_true] at h2
  exact ⟨h2.1.1.1, h2.1.1.2, h2.1.2, h2.2⟩

/-- Quote parity composes over append. -/
theorem endQ_append (a b : List Char) (s : Bool) :
    endQ (a ++ b) s = endQ b (endQ a s) := by
  induction a generalizing s with
  | nil => rfl
  | cons c cs ih => simp [endQ, ih]

/-- Freedom from unquoted newlines composes over append. -/
theorem goodSeg_append (a b : List Char) (s : Bool) (ha : goodSeg a s = true) :
    goodSeg (a ++ b) s = goodSeg b (endQ a s) := by
  induction a generalizing s with
  | nil => simp [endQ]
  | cons c cs ih =>
      by_cases hq : (c == '"') = true
      · simp only [goodSeg, hq, if_true] at ha
        simp only [List.cons_append, goodSeg, endQ, hq, if_true]
        exact ih _ ha
      · by_cases hn : (c == '\n' && !s) = true
        · simp [goodSeg, hq, hn] at ha
        · simp only [goodSeg, hq, hn, if_false, Bool.false_eq_true] at ha
          simp only [List.cons_append, goodSeg, endQ, hq, hn, if_false,
                     Bool.false_eq_true]
          exact ih _ ha

/-- Scanning the quote-doubled text of a field from inside quotes ends
inside quotes. -/
theorem endQ_escQ (f : List Char) : endQ (escQ f) true = true := by
  induction f with
  | nil => rfl
  | cons c cs ih =>
      by_cases hq : (c == '"') = true
      · simp [escQ, hq, endQ, ih]
      · simp [escQ, hq, endQ, ih]

/-- Scanning the quote-doubled text of a field from inside quotes meets no
unquoted newline. -/
theorem goodSeg_escQ (f : List Char) : goodSeg (escQ f) true = true := by
  induction f with
  | nil => rfl
  | cons c cs ih =>
      by_cases hq : (c == '"') = true
      · simp [escQ, hq, goodSeg, ih]
      · simp [escQ, hq, goodSeg, ih]

/-- A quote-free segment does not change the quote parity. -/
theorem endQ_no_quote (f : List Char) (s : Bool)
    (h : ∀ c ∈ f, (c == '"') = false) : endQ f s = s := by
  induction f generalizing s with
  | nil => rfl
  | cons c cs ih =>
      simp only [endQ, h c (List.mem_cons_self c cs), Bool.false_eq_true,
                 if_false]
      exact ih _ (fun x hx => h x (List.mem_cons_of_mem c hx))

/-- A segment without quotes or newlines is always safe to scan. -/
theorem goodSeg_no_special (f : List Char) (s : Bool)
    (h : ∀ c ∈ f, (c == '"') = false ∧ (c == '\n') = false) :
    goodSeg f s = true := by
  induction f generalizing s with
  | nil => rfl
  | cons c cs ih =>
      have h1 := (h c (List.mem_cons_self c cs)).1
      have h2 := (h c (List.mem_cons_self c cs)).2
      simp only [goodSeg, h1, h2, Bool.false_and, Bool.false_eq_true, if_false]
      exact ih _ (fun x hx => h x (List.mem_cons_of_mem c hx))

/-- A rendered field is quote-balanced: scanning it from outside quotes ends
outside quotes. -/
theorem endQ_quoteField (f : List Char) : endQ (quoteField f) false = false := by
  unfold quoteField
  cases hq : needsQuote f
  · simp only [Bool.false_eq_true, if_false]
    exact endQ_no_quote f false
      (fun c hc => (no_special_of_not_needsQuote f hq c hc).2.1)
  · simp only [if_true]
    have h1 : endQ ('"' :: (escQ f ++ ['"'])) false
        = endQ (escQ f ++ ['"']) true := by simp [endQ]
    rw [h1, endQ_append, endQ_escQ]
    simp [endQ]

/-- A rendered field contains no newline at an unquoted position. -/
theorem goodSeg_quoteField (f : List Char) :
    goodSeg (quoteField f) false = true := by
  unfold quoteField
  cases hq : needsQuote f
  · simp only [Bool.false_eq_true, if_false]
    exact goodSeg_no_special f false (fun c hc =>
      ⟨(no_special_of_not_needsQuote f hq c hc).2.1,
       (no_special_of_not_needsQuote f hq c hc).2.2.1⟩)
  · simp only [if_true]
    have h1 : goodSeg ('"' :: (escQ f ++ ['"'])) false
        = goodSeg (escQ f ++ ['"']) true := by simp [goodSeg]
    rw [h1, goodSeg_append _ _ _ (goodSeg_escQ f), endQ_escQ]
    simp [goodSeg]

/-- Joining safe fields with commas yields a safe, quote-balanced line. -/
theorem joinComma_good (fs : List (List Char)) :
    (∀ f ∈ fs, endQ f false = false ∧ goodSeg f false = true) →
    endQ (joinComma fs) false = false ∧
      goodSeg (joinComma fs) false = true := by
  induction fs with
  | nil => exact fun _ => ⟨rfl, rfl⟩
  | cons f fs2 ih =>
      intro h
      cases fs2 with
      | nil => simpa [joinComma] using h f (by simp)
      | cons f2 rest =>
          have hf := h f (by simp)
          have hrest := ih (fun x hx => h x (by simp [hx]))
          have hjc : joinComma (f :: f2 :: rest)
              = f ++ ',' :: joinComma (f2 :: rest) := rfl
          constructor
          · rw [hjc, endQ_append, hf.1]
            simpa [endQ] using hrest.1
          · rw [hjc, goodSeg_append _ _ _ hf.2, hf.1]
            simpa [goodSeg] using hrest.2

/-- Every CSV line emitted by the writer is quote-balanced and free of
unquoted newlines. -/
theorem csvLineContent_good (fields : List (List Char)) :
    endQ (csvLineContent fields) false = false ∧
      goodSeg (csvLineContent fields) false = true := by
  apply joinComma_good
  intro f hf
  obtain ⟨g, _, rfl⟩ := List.mem_map.mp hf
  exact ⟨endQ_quoteField g, goodSeg_quoteField g⟩

/-- Splitting records: a quote-balanced line without unquoted newlines,
followed by a newline, is consumed as exactly one record. -/
theorem splitRecsAux_line (L : List Char) (rest acc : List Char) (b : Bool)
    (hg : goodSeg L b = true) (he : endQ L b = false) :
    splitRecsAux (L ++ '\n' :: rest) b acc =
      (acc.reverse ++ L) :: splitRecsAux rest false [] := by
  induction L generalizing b acc with
  | nil =>
      have hb : b = false := by simpa [endQ] using he
      subst hb
      simp [splitRecsAux]
  | cons c cs ih =>
      by_cases hq : (c == '"') = true
      · have hg2 : goodSeg cs (!b) = true := by
          simpa [goodSeg, hq] using hg
        have he2 : endQ cs (!b) = false := by
          simpa [endQ, hq] using he
        simp only [List.cons_append, splitRecsAux, hq, if_true, List.append_eq]
        rw [ih _ _ hg2 he2]
        simp
      · by_cases hn : (c == '\n' && !b) = true
        · exfalso
          simp [goodSeg, hq, hn] at hg
        · have hg2 : goodSeg cs b = true := by
            simpa [goodSeg, hq, hn] using hg
          have he2 : endQ cs b = false := by
            simpa [endQ, hq] using he
          simp only [List.cons_append, splitRecsAux, hq, hn,
                     Bool.false_eq_true, if_false, List.append_eq]
          rw [ih _ _ hg2 he2]
          simp

/-- Round trip at the record level: the reader recovers exactly one record
per line written by the writer, regardless of the field contents. -/
theorem csvRecords_csvText (records : List (List (List Char))) :
    csvRecords (csvText records) = records.map csvLineContent := by
  unfold csvRecords
  induction records with
  | nil => rfl
  | cons rec rest ih =>
      have hgood := csvLineContent_good rec
      have hsplit : csvText (rec :: rest)
          = csvLineContent rec ++ '\n' :: csvText rest := by
        simp [csvText]
      rw [hsplit, splitRecsAux_line _ _ _ _ hgood.2 hgood.1]
      simp [ih]

/-- C8: the export of a list view is one header line (the column names)
followed by one line per listed record; parsing the text back yields
`rows + 1` records whose first record's fields are exactly the column
names — the same row count and column names as the live list view.  Proved
for every store state (and so in particular for every non-empty view). -/
theorem csv_export_roundtrip (db : DB) :
    csvRecords (customersCsv (get_all_customers Pool.ready none db).1) =
      (customerColumns.map String.data ::
        (get_all_customers Pool.ready none db).1.map customerRecord).map
        csvLineContent ∧
    (csvRecords (customersCsv (get_all_customers Pool.ready none db).1)).length =
      (get_all_customers Pool.ready none db).1.length + 1 ∧
    (csvRecords (customersCsv (get_all_customers Pool.ready none db).1)).head? =
      some (csvLineContent (customerColumns.map String.data)) ∧
    csvFields (csvLineContent (customerColumns.map String.data)) =
      customerColumns.map String.data ∧
    csvRecords (inventoryCsv (get_all_inventory Pool.ready none db).1) =
      (inventoryColumns.map String.data ::
        (get_all_inventory Pool.ready none db).1.map inventoryRecord).map
        csvLineContent ∧
    (csvRecords (inventoryCsv (get_all_inventory Pool.ready none db).1)).length =
      (get_all_inventory Pool.ready none db).1.length + 1 ∧
    (csvRecords (inventoryCsv (get_all_inventory Pool.ready none db).1)).head? =
      some (csvLineContent (inventoryColumns.map String.data)) ∧
    csvFields (csvLineContent (inventoryColumns.map String.data)) =
      inventoryColumns.map String.data := by
  have hc := csvRecords_csvText
    (customerColumns.map String.data ::
      (get_all_customers Pool.ready none db).1.map customerRecord)
  have hi := csvRecords_csvText
    (inventoryColumns.map String.data ::
      (get_all_inventory Pool.ready none db).1.map inventoryRecord)
  refine ⟨hc, ?_, ?_, by decide, hi, ?_, ?_, by decide⟩
  · unfold customersCsv
    rw [hc]
    simp
  · unfold customersCsv
    rw [hc]
    rfl
  · unfold inventoryCsv
    rw [hi]
    simp
  · unfold inventoryCsv
    rw [hi]
    rfl
